import Mathlib

/-!
A shallow embedding of `src/lib/src/filter/mod.rs` (the ffplayout filter-graph
builder) together with proofs about its specification.

Modelling conventions:
* Rust `f64` values are modelled as exact rationals (`ℚ`); every claim below
  depends only on control flow and exact comparisons, never on float rounding.
* A Rust panic (`unwrap` on a failed parse, which aborts graph construction
  for the item) is modelled as `Option.none`, propagated to the entry point.
* External collaborators that are not part of `src/` (`crate::utils`,
  the drawtext / loudnorm leaf generators, `custom_filter`, `get_delta`,
  file-system probing) are modelled as explicit input data, marked
  `Modelled from the spec:` below.
-/

namespace Ffplayout

/-- `enum FilterType { Audio, Video }` from the source. -/
inductive FilterType where
  | Audio : FilterType
  | Video : FilterType
deriving DecidableEq

open FilterType

/-- The `fmt::Display` impl for `FilterType`: `Audio ↦ "a"`, `Video ↦ "v"`. -/
def ftStr : FilterType → String
  | Audio => "a"
  | Video => "v"

/-- The output-label format `format!("[{}out{}]", filter_type, track)` used in
`add_filter` and `close_chains`. -/
def label (ft : FilterType) (nr : Int) : String :=
  "[" ++ ftStr ft ++ "out" ++ toString nr ++ "]"

/-- One probed video stream (the fields of `ffprobe::Stream` consumed by the
source: width, height, display aspect ratio, rational frame rate, field order,
duration). -/
structure VideoStream where
  width : Option Int
  height : Option Int
  display_aspect_ratio : Option String
  r_frame_rate : String
  field_order : Option String
  duration : Option String
deriving DecidableEq

/-- One probed audio stream (only its duration string is consumed). -/
structure AudioStream where
  duration : Option String
deriving DecidableEq

/-- `MediaProbe`: the stream lists produced by probing a media path. -/
structure MediaProbe where
  video_streams : List VideoStream
  audio_streams : List AudioStream
deriving DecidableEq

/-- The fields of `Media` consumed by the filter module.  `audioIsFile`
models `Path::new(&node.audio).is_file()` and `audioFileProbe` models the
result of `MediaProbe::new(&node.audio)` (file-system access externalized
into the input data). -/
structure Media where
  source : String
  audio : String
  audioIsFile : Bool
  audioFileProbe : MediaProbe
  seek : ℚ
  out : ℚ
  duration : ℚ
  probe : Option MediaProbe
  category : String
  is_live : Option Bool
  begin : Option ℚ
  last_ad : Option Bool
  next_ad : Option Bool
  custom_filter : String

/-- Modelled from the spec: `OutputMode` lives in `crate::utils` (not under
`src/`); "enum incl. a streaming/live mode" — the streaming mode is `HLS`. -/
inductive OutputMode where
  | Desktop : OutputMode
  | HLS : OutputMode
  | Null : OutputMode
  | Stream : OutputMode
deriving DecidableEq

/-- The `config.processing` fields consumed by the source.  `logoIsFile`
models `Path::new(&config.processing.logo).is_file()`. -/
structure ProcessingCfg where
  width : Int
  height : Int
  aspect : ℚ
  fps : ℚ
  add_logo : Bool
  logo : String
  logoIsFile : Bool
  logo_opacity : ℚ
  logo_filter : String
  add_loudnorm : Bool
  volume : ℚ
  audio_tracks : Nat
  custom_filter : String

/-- The `config.general` fields consumed by the source. -/
structure GeneralCfg where
  generate : Option (List String)
  stop_threshold : ℚ

/-- The `config.text` fields consumed by the source. -/
structure TextCfg where
  add_text : Bool
  text_from_filename : Bool

/-- The `config.out` fields consumed by the source. -/
structure OutCfg where
  mode : OutputMode

/-- The slice of `PlayoutConfig` consumed by the filter module. -/
structure PlayoutConfig where
  processing : ProcessingCfg
  general : GeneralCfg
  text : TextCfg
  out : OutCfg

/-- Modelled from the spec: the external collaborators consumed by
`filter_chains` that are not under `src/` — the `get_delta` schedule-delta
calculator, the drawtext and loudnorm leaf fragment generators, and the
`custom_filter` splitter `rawString -> (videoFragment, audioFragment)`. -/
structure Externals where
  getDelta : PlayoutConfig → ℚ → ℚ
  drawtext : PlayoutConfig → Media → String
  loudnorm : PlayoutConfig → String
  customSplit : String → String × String

/-! ### Numeric parsing and formatting -/

/-- Decimal value of a digit list (most significant first). -/
def digitsNat (cs : List Char) : Nat :=
  cs.foldl (fun a c => a * 10 + (c.toNat - 48)) 0

/-- Nonempty all-digit character list. -/
def allDigits (cs : List Char) : Bool :=
  !cs.isEmpty && cs.all Char.isDigit

/-- Mantissa of a float literal: `digits`, `digits.digits`, `digits.` or
`.digits`. -/
def parseMant (s : String) : Option ℚ :=
  match s.splitOn "." with
  | [i] => if allDigits i.data then some (digitsNat i.data : ℚ) else none
  | [i, f] =>
      if (i.data.all Char.isDigit && f.data.all Char.isDigit)
          && !(i.isEmpty && f.isEmpty) then
        some ((digitsNat i.data : ℚ) + (digitsNat f.data : ℚ) / (10 : ℚ) ^ f.length)
      else none
  | _ => none

/-- Exponent of a float literal: optionally signed digits. -/
def parseExp (s : String) : Option Int :=
  let p := if s.startsWith "-" then ((-1 : Int), s.drop 1)
           else if s.startsWith "+" then (1, s.drop 1) else (1, s)
  if allDigits p.2.data then some (p.1 * (digitsNat p.2.data : Int)) else none

/-- Models Rust `str::parse::<f64>()` on finite decimal literals (optional
sign, decimal mantissa, optional decimal exponent), returning the exact
rational value; non-numeric text parses to `none`.  The `inf`/`NaN` forms
have no rational value and are outside the scope of every claim, as is float
rounding. -/
def parseF64 (s : String) : Option ℚ :=
  let p := if s.startsWith "-" then ((-1 : ℚ), s.drop 1)
           else if s.startsWith "+" then ((1 : ℚ), s.drop 1) else (1, s)
  match p.2.splitOn "e" with
  | [m] =>
      match m.splitOn "E" with
      | [m1] => (parseMant m1).map (p.1 * ·)
      | [m1, ex] => do
          let mv ← parseMant m1
          let e ← parseExp ex
          pure (p.1 * mv * (10 : ℚ) ^ e)
      | _ => none
  | [m, ex] => do
      let mv ← parseMant m
      let e ← parseExp ex
      pure (p.1 * mv * (10 : ℚ) ^ e)
  | _ => none

/-- Models the Rust float `Display` used inside `format!` fragments.
Integral values render exactly as Rust renders them (`"10"`, `"-1"`); a
non-integral rational renders as `num/den`.  No claim inspects the digits of
a formatted non-integral number, only whole-fragment structure. -/
def fmtQ (q : ℚ) : String :=
  if q.den = 1 then toString q.num else toString q.num ++ "/" ++ toString q.den

/-- Modelled from the spec: `is_close` lives in `crate::utils` (not under
`src/`): "isClose(a, b, tolerance) -> bool: |a-b| <= tolerance". -/
def is_close (a b tol : ℚ) : Bool :=
  decide (|a - b| ≤ tol)

/-- Modelled from the spec: `fps_calc` lives in `crate::utils` (not under
`src/`): "frameRate(rationalString, defaultFactor) -> float: parse `N/D`,
return N/D"; the default factor is returned when the text does not parse. -/
def fps_calc (r : String) (default_factor : ℚ) : ℚ :=
  match r.splitOn "/" with
  | [n, d] =>
      match parseF64 n, parseF64 d with
      | some nv, some dv => nv / dv
      | _, _ => default_factor
  | _ => default_factor

/-! ### The chain builder `Filters` -/

/-- `struct Filters` from the source. -/
structure Filters where
  audio_chain : String
  video_chain : String
  final_chain : String
  audio_map : List String
  video_map : List String
  output_map : List String
  audio_position : Int
  video_position : Int
  audio_last : Int
  video_last : Int
  cmd : List String
deriving DecidableEq

/-- `Filters::new(position)`. -/
def Filters.new (position : Int) : Filters :=
  { audio_chain := ""
    video_chain := ""
    final_chain := ""
    audio_map := []
    video_map := []
    output_map := []
    audio_position := position
    video_position := position
    audio_last := -1
    video_last := -1
    cmd := [] }

/-- `Filters::add_filter(filter, track_nr, filter_type)`.  When the track
number differs from the kind's last track, the open segment (if the chain is
nonempty) is closed with its label and a `;` separator and a new segment is
opened — sourced from the raw input selector `[position:kind:track]` unless
the fragment is a self-contained generator (`aevalsrc`/`movie` prefix); the
new label is recorded in the kind's map and in `output_map`.  Otherwise the
fragment continues the open segment, spliced verbatim when it starts with
`;` or `[`, else behind a comma. -/
def Filters.add_filter (self : Filters) (filter : String) (track_nr : Int)
    (ft : FilterType) : Filters :=
  match ft with
  | Audio =>
      if self.audio_last ≠ track_nr then
        let selector := if self.audio_chain = "" then "" else label Audio self.audio_last
        let sep := if self.audio_chain = "" then "" else ";"
        let body :=
          if filter.startsWith "aevalsrc" || filter.startsWith "movie" then filter
          else "[" ++ toString self.audio_position ++ ":" ++ ftStr Audio ++ ":"
                ++ toString track_nr ++ "]" ++ filter
        { self with
            audio_chain := self.audio_chain ++ selector ++ sep ++ body
            audio_map := self.audio_map ++ [label Audio track_nr]
            output_map := self.output_map ++ ["-map", label Audio track_nr]
            audio_last := track_nr }
      else if filter.startsWith ";" || filter.startsWith "[" then
        { self with audio_chain := self.audio_chain ++ filter }
      else
        { self with audio_chain := self.audio_chain ++ "," ++ filter }
  | Video =>
      if self.video_last ≠ track_nr then
        let selector := if self.video_chain = "" then "" else label Video self.video_last
        let sep := if self.video_chain = "" then "" else ";"
        let body :=
          if filter.startsWith "aevalsrc" || filter.startsWith "movie" then filter
          else "[" ++ toString self.video_position ++ ":" ++ ftStr Video ++ ":"
                ++ toString track_nr ++ "]" ++ filter
        { self with
            video_chain := self.video_chain ++ selector ++ sep ++ body
            video_map := self.video_map ++ [label Video track_nr]
            output_map := self.output_map ++ ["-map", label Video track_nr]
            video_last := track_nr }
      else if filter.startsWith ";" || filter.startsWith "[" then
        { self with video_chain := self.video_chain ++ filter }
      else
        { self with video_chain := self.video_chain ++ "," ++ filter }

/-- `Filters::close_chains`: append the final output selector of each chain. -/
def Filters.close_chains (self : Filters) : Filters :=
  { self with
      audio_chain := self.audio_chain ++ label Audio self.audio_last
      video_chain := self.video_chain ++ label Video self.video_last }

/-- `Filters::build_final_chain`: concatenate video chain, `;`, audio chain;
push `-filter_complex`, the program, and move `output_map` into `cmd`. -/
def Filters.build_final_chain (self : Filters) : Filters :=
  let fc := self.final_chain ++ self.video_chain ++ ";" ++ self.audio_chain
  { self with
      final_chain := fc
      cmd := self.cmd ++ ["-filter_complex", fc] ++ self.output_map
      output_map := [] }

/-! ### Filter-step decision functions -/

/-- `fn deinterlace`. -/
def deinterlace (field_order : Option String) (chain : Filters) : Filters :=
  match field_order with
  | some order => if order ≠ "progressive" then chain.add_filter "yadif=0:-1:0" 0 Video else chain
  | none => chain

/-- `fn pad`. -/
def pad (aspect : ℚ) (chain : Filters) (v_stream : VideoStream)
    (config : PlayoutConfig) : Filters :=
  if !(is_close aspect config.processing.aspect (3 / 100)) then
    let sc :=
      match v_stream.width, v_stream.height with
      | some w, some h =>
          if w > config.processing.width ∧ aspect > config.processing.aspect then
            "scale=" ++ toString config.processing.width ++ ":-1,"
          else if h > config.processing.height ∧ aspect < config.processing.aspect then
            "scale=-1:" ++ toString config.processing.height ++ ","
          else ""
      | _, _ => ""
    chain.add_filter
      (sc ++ "pad=max(iw\\,ih*(" ++ toString config.processing.width ++ "/"
        ++ toString config.processing.height ++ ")):ow/("
        ++ toString config.processing.width ++ "/"
        ++ toString config.processing.height ++ "):(ow-iw)/2:(oh-ih)/2")
      0 Video
  else chain

/-- `fn fps` (frame-rate normalize). -/
def fpsStep (fps_val : ℚ) (chain : Filters) (config : PlayoutConfig) : Filters :=
  if fps_val ≠ config.processing.fps then
    chain.add_filter ("fps=" ++ fmtQ config.processing.fps) 0 Video
  else chain

/-- `fn scale`. -/
def scale (width height : Option Int) (aspect : ℚ) (chain : Filters)
    (config : PlayoutConfig) : Filters :=
  match width, height with
  | some w, some h =>
      let chain :=
        if w ≠ config.processing.width ∨ h ≠ config.processing.height then
          chain.add_filter
            ("scale=" ++ toString config.processing.width ++ ":"
              ++ toString config.processing.height) 0 Video
        else chain.add_filter "null" 0 Video
      if !(is_close aspect config.processing.aspect (3 / 100)) then
        chain.add_filter ("setdar=dar=" ++ fmtQ config.processing.aspect) 0 Video
      else chain
  | _, _ =>
      (chain.add_filter
        ("scale=" ++ toString config.processing.width ++ ":"
          ++ toString config.processing.height) 0 Video).add_filter
        ("setdar=dar=" ++ fmtQ config.processing.aspect) 0 Video

/-- `fn fade`. -/
def fade (node : Media) (chain : Filters) (nr : Int) (ft : FilterType) : Filters :=
  let t := if ft = Audio then "a" else ""
  let chain :=
    if node.seek > 0 ∨ node.is_live = some true then
      chain.add_filter (t ++ "fade=in:st=0:d=0.5") nr ft
    else chain
  if node.out ≠ node.duration ∧ node.out - node.seek - 1 > 0 then
    chain.add_filter
      (t ++ "fade=out:st=" ++ fmtQ (node.out - node.seek - 1) ++ ":d=1.0") nr ft
  else chain

/-- `fn overlay` (logo overlay). -/
def overlay (node : Media) (chain : Filters) (config : PlayoutConfig) : Filters :=
  if config.processing.add_logo ∧ config.processing.logoIsFile
      ∧ node.category ≠ "advertisement" then
    let logo_chain :=
      "null[v];movie=" ++ config.processing.logo
        ++ ":loop=0,setpts=N/(FRAME_RATE*TB),format=rgba,colorchannelmixer=aa="
        ++ fmtQ config.processing.logo_opacity ++ "[l];[v][l]"
        ++ config.processing.logo_filter ++ ":shortest=1"
    let logo_chain :=
      if node.last_ad.getD false then logo_chain ++ ",fade=in:st=0:d=1.0:alpha=1"
      else logo_chain
    let logo_chain :=
      if node.next_ad.getD false then
        logo_chain ++ ",fade=out:st=" ++ fmtQ (node.out - node.seek - 1) ++ ":d=1.0:alpha=1"
      else logo_chain
    chain.add_filter logo_chain 0 Video
  else chain

/-- `fn extend_video`. -/
def extend_video (node : Media) (chain : Filters) : Filters :=
  match (node.probe.bind (fun p => p.video_streams[0]?)).bind
      (fun v => v.duration.bind parseF64) with
  | some video_duration =>
      if node.out - node.seek > video_duration - node.seek + 1 / 10
          ∧ node.duration ≥ node.out then
        chain.add_filter
          ("tpad=stop_mode=add:stop_duration="
            ++ fmtQ ((node.out - node.seek) - (video_duration - node.seek))) 0 Video
      else chain
  | none => chain

/-- `fn add_text` (drawtext for lower-third messages; the fragment itself
comes from the external `v_drawtext` leaf generator). -/
def add_text (ext : Externals) (node : Media) (chain : Filters)
    (config : PlayoutConfig) : Filters :=
  if config.text.add_text
      ∧ (config.text.text_from_filename ∨ config.out.mode = OutputMode.HLS) then
    chain.add_filter (ext.drawtext config node) 0 Video
  else chain

/-- `fn add_audio` (silence synthesis; the `warn!` log call has no effect on
the graph state). -/
def add_audio (node : Media) (chain : Filters) (nr : Int) : Filters :=
  chain.add_filter
    ("aevalsrc=0:channel_layout=stereo:duration=" ++ fmtQ (node.out - node.seek)
      ++ ":sample_rate=48000") nr Audio

/-- `fn extend_audio`.  The probe is taken from the separate audio file when
one exists, else from the item's probe; the decision reads the duration of
audio stream index 0 of that probe. -/
def extend_audio (node : Media) (chain : Filters) (nr : Int) : Filters :=
  let probe := if node.audioIsFile then some node.audioFileProbe else node.probe
  match (probe.bind (fun p => p.audio_streams[0]?)).bind
      (fun a => a.duration.bind parseF64) with
  | some audio_duration =>
      if node.out - node.seek > audio_duration - node.seek + 1 / 10
          ∧ node.duration ≥ node.out then
        chain.add_filter ("apad=whole_dur=" ++ fmtQ (node.out - node.seek)) nr Audio
      else chain
  | none => chain

/-- The duration, parsed as a float, of audio stream index 0 of the probe
selected by `extend_audio` (the separate audio file's probe when that file
exists, else the item's probe) — the only probing data `extend_audio`
consumes. -/
def audio_dur0 (node : Media) : Option ℚ :=
  ((if node.audioIsFile then some node.audioFileProbe else node.probe).bind
    (fun p => p.audio_streams[0]?)).bind (fun a => a.duration.bind parseF64)

/-- `fn add_loudnorm` (fragment from the external `a_loudnorm` generator). -/
def add_loudnorm (ext : Externals) (chain : Filters) (config : PlayoutConfig)
    (nr : Int) : Filters :=
  if config.processing.add_loudnorm then
    chain.add_filter (ext.loudnorm config) nr Audio
  else chain

/-- `fn audio_volume`. -/
def audio_volume (chain : Filters) (config : PlayoutConfig) (nr : Int) : Filters :=
  if config.processing.volume ≠ 1 then
    chain.add_filter ("volume=" ++ fmtQ config.processing.volume) nr Audio
  else chain

/-- `fn aspect_calc`.  `none` models the panic of the two `unwrap` calls on
malformed numeric text (including a missing `:`), which aborts graph
construction for the item. -/
def aspect_calc (aspect_string : Option String) (config : PlayoutConfig) : Option ℚ :=
  match aspect_string with
  | none => some config.processing.aspect
  | some aspect =>
      let aspect_vec := aspect.splitOn ":"
      match aspect_vec[0]?, aspect_vec[1]? with
      | some ws, some hs =>
          match parseF64 ws, parseF64 hs with
          | some w, some h => some (w / h)
          | _, _ => none
      | _, _ => none

/-- The `speed_filter` string computed inside `fn realtime`: unity speed by
default; when a scheduled begin exists, the item is behind schedule
(`delta < 0`) and not seeked, and the implied factor lies in `(0, 1.1)` while
`delta` is below the stop threshold, the factor is used instead of 1. -/
def realtime_speed_filter (ext : Externals) (config : PlayoutConfig)
    (node : Media) : String :=
  match node.begin with
  | some b =>
      let delta := ext.getDelta config b
      if delta < 0 ∧ node.seek = 0 then
        let duration := node.out - node.seek
        let speed := duration / (duration + delta)
        if speed > 0 ∧ speed < 11 / 10 ∧ delta < config.general.stop_threshold then
          "realtime=speed=" ++ fmtQ speed
        else "realtime=speed=1"
      else "realtime=speed=1"
  | none => "realtime=speed=1"

/-- `fn realtime`: in HLS mode without the generation flag, append the speed
filter to the video chain (track 0). -/
def realtime (node : Media) (chain : Filters) (config : PlayoutConfig)
    (ext : Externals) : Filters :=
  if config.general.generate = none ∧ config.out.mode = OutputMode.HLS then
    chain.add_filter (realtime_speed_filter ext config node) 0 Video
  else chain

/-- `fn custom`. -/
def custom (filter : String) (chain : Filters) (nr : Int) (ft : FilterType) : Filters :=
  if filter ≠ "" then chain.add_filter filter nr ft else chain

/-! ### The orchestrator `filter_chains` -/

/-- The geometry block run for the first probed video stream: `aspect_calc`
(which can abort), `fps_calc`, then deinterlace → pad → fps → scale. -/
def video_geometry (config : PlayoutConfig) (v_stream : VideoStream)
    (st : Filters) : Option Filters :=
  match aspect_calc v_stream.display_aspect_ratio config with
  | none => none
  | some aspect =>
      let frame_per_sec := fps_calc v_stream.r_frame_rate 1
      let st := deinterlace v_stream.field_order st
      let st := pad aspect st v_stream config
      let st := fpsStep frame_per_sec st config
      some (scale v_stream.width v_stream.height aspect st config)

/-- The `else` branch of the probe match: frame-rate-normalize with 0 fps
and scale with unknown dimensions (aspect argument `1.0`). -/
def no_probe_video (config : PlayoutConfig) (st : Filters) : Filters :=
  scale none none 1 (fpsStep 0 st config) config

/-- The probe-dependent prefix of `filter_chains`: audio input index, video
geometry, extend-video (or the metadata-less fallback). -/
def probe_video (config : PlayoutConfig) (node : Media) (st : Filters) :
    Option Filters :=
  match node.probe with
  | some probe =>
      let st := if node.audioIsFile then { st with audio_position := 1 } else st
      let st1 :=
        match probe.video_streams[0]? with
        | some v_stream => video_geometry config v_stream st
        | none => some st
      st1.map (extend_video node)
  | none => some (no_probe_video config st)

/-- Whether the item's probe has an audio stream at index `i` (the condition
gating `extend_audio` against `add_audio` in the per-track loop). -/
def hasAudioStream (node : Media) (i : Nat) : Bool :=
  (node.probe.bind (fun p => p.audio_streams[i]?)).isSome

/-- The extend-audio / silence-synthesis dispatch at the head of the
per-track loop body. -/
def audio_dispatch (node : Media) (i : Nat) (st : Filters) : Filters :=
  if hasAudioStream node i || node.audioIsFile then
    extend_audio node st i
  else if !(node.is_live.getD false) then
    add_audio node st i
  else st

/-- One iteration of the `for i in 0..audio_tracks` loop. -/
def audio_track_step (ext : Externals) (config : PlayoutConfig)
    (proc_af list_af : String) (node : Media) (st : Filters) (i : Nat) : Filters :=
  let st := audio_dispatch node i st
  let st := st.add_filter "anull" i Audio
  let st := add_loudnorm ext st config i
  let st := fade node st i Audio
  let st := audio_volume st config i
  let st := custom proc_af st i Audio
  custom list_af st i Audio

/-- `fn filter_chains` up to and including `close_chains`; `none` models the
abort on malformed aspect-ratio text. -/
def filter_chains_state (ext : Externals) (config : PlayoutConfig)
    (node : Media) : Option Filters :=
  match probe_video config node (Filters.new 0) with
  | none => none
  | some st =>
      let st := add_text ext node st config
      let st := fade node st 0 Video
      let st := overlay node st config
      let st := realtime node st config ext
      let pr := ext.customSplit config.processing.custom_filter
      let li := ext.customSplit node.custom_filter
      let st := custom pr.1 st 0 Video
      let st := custom li.1 st 0 Video
      let st := (List.range config.processing.audio_tracks).foldl
        (audio_track_step ext config pr.2 li.2 node) st
      some st.close_chains

/-- `pub fn filter_chains`: the returned command-argument list. -/
def filter_chains (ext : Externals) (config : PlayoutConfig) (node : Media) :
    Option (List String) :=
  (filter_chains_state ext config node).map (fun st => st.build_final_chain.cmd)

/-! ### Spec-side description helpers -/

/-- Structural rendering of a natural number in decimal (most significant
digit first); used to reason about `Nat.repr`. -/
def natChars (n : Nat) : List Char :=
  if _h : n < 10 then [Nat.digitChar n]
  else natChars (n / 10) ++ [Nat.digitChar (n % 10)]
termination_by n
decreasing_by exact Nat.div_lt_self (by omega) (by norm_num)

/-- The audio output labels `[aout0] … [aout(n-1)]` in creation order. -/
def aLabels (n : Nat) : List String :=
  (List.range n).map (fun i : Nat => label FilterType.Audio (i : Int))

/-- The flat `-map` argument rendering of a label list, in order. -/
def mapArgs (ls : List String) : List String :=
  ls.flatMap (fun m => ["-map", m])

/-- The chain of a given kind (the `chain` borrow in `add_filter`). -/
def chainOf (st : Filters) : FilterType → String
  | FilterType.Audio => st.audio_chain
  | FilterType.Video => st.video_chain

/-- The label map of a given kind (the `map` borrow in `add_filter`). -/
def mapOf (st : Filters) : FilterType → List String
  | FilterType.Audio => st.audio_map
  | FilterType.Video => st.video_map

/-- The last-written track of a given kind (the `last` borrow in
`add_filter`). -/
def lastOf (st : Filters) : FilterType → Int
  | FilterType.Audio => st.audio_last
  | FilterType.Video => st.video_last

/-- The input position of a given kind (the `position` borrow in
`add_filter`). -/
def posOf (st : Filters) : FilterType → Int
  | FilterType.Audio => st.audio_position
  | FilterType.Video => st.video_position

/-- Builder-state invariant holding throughout the video phase of
`filter_chains`: the audio side untouched, and the video side either not yet
opened or opened exactly once at track 0 with its label recorded. -/
def VPhase (st : Filters) : Prop :=
  st.audio_map = [] ∧ st.audio_chain = "" ∧ st.audio_last = -1 ∧
  st.output_map = mapArgs st.video_map ∧
  ((st.video_map = [] ∧ st.video_last = -1) ∨
    (st.video_map = [label FilterType.Video 0] ∧ st.video_last = 0))

/-- Builder-state invariant after `k` iterations of the audio-track loop,
`vl` being the video labels frozen at loop entry. -/
def APhase (vl : List String) (k : Nat) (st : Filters) : Prop :=
  st.video_map = vl ∧ st.audio_map = aLabels k ∧
  st.audio_last = (k : Int) - 1 ∧
  st.output_map = mapArgs vl ++ mapArgs (aLabels k)

/-- "The audio segment for track `i` has been opened exactly once on top of
`st₀` and no other bookkeeping changed": relation maintained across the rest
of a loop-body iteration. -/
def AOpened (i : Nat) (st₀ st : Filters) : Prop :=
  st.audio_map = st₀.audio_map ++ [label FilterType.Audio (i : Int)] ∧
  st.output_map = st₀.output_map ++ ["-map", label FilterType.Audio (i : Int)] ∧
  st.audio_last = (i : Int) ∧ st.video_map = st₀.video_map

/-! ### Concrete instances used by witnesses and counterexamples -/

/-- Benign external collaborators for concrete runs. -/
def extB : Externals :=
  { getDelta := fun _ _ => 0
    drawtext := fun _ _ => ""
    loudnorm := fun _ => "loudnorm=I=-18:TP=-1.5:LRA=11"
    customSplit := fun _ => ("", "") }

/-- A plain desktop configuration: 1024×576 at 16:9, 25 fps, one audio
track, no logo/text/loudnorm, unity volume. -/
def cfgB : PlayoutConfig :=
  { processing :=
      { width := 1024, height := 576, aspect := 16 / 9, fps := 25
        add_logo := false, logo := "", logoIsFile := false
        logo_opacity := 7 / 10, logo_filter := "overlay=W-w-12:12"
        add_loudnorm := false, volume := 1, audio_tracks := 1
        custom_filter := "" }
    general := { generate := none, stop_threshold := 30 }
    text := { add_text := false, text_from_filename := false }
    out := { mode := OutputMode.Desktop } }

/-- A fully probed ten-second clip matching the target geometry, played
whole (`seek = 0`, `out = duration = 10`). -/
def nodeB : Media :=
  { source := "/media/clip.mp4", audio := "", audioIsFile := false
    audioFileProbe := ⟨[], []⟩
    seek := 0, out := 10, duration := 10
    probe := some
      ⟨[{ width := some 1024, height := some 576
          display_aspect_ratio := some "16:9", r_frame_rate := "25/1"
          field_order := some "progressive", duration := some "10.0" }],
        [{ duration := some "10.0" }]⟩
    category := "", is_live := none, begin := none
    last_ad := none, next_ad := none, custom_filter := "" }

/-- C3 input: a probe with no streams at all, so no filter step applies. -/
def nodeC3 : Media := { nodeB with probe := some ⟨[], []⟩ }

/-- C3 input: no audio tracks configured. -/
def cfgC3 : PlayoutConfig :=
  { cfgB with processing := { cfgB.processing with audio_tracks := 0 } }

/-- C5 input: a live item played whole (`out = duration`, `seek = 0`). -/
def nodeC5 : Media := { nodeB with is_live := some true }

/-- C7 input: HLS (streaming) output mode, generation flag unset. -/
def cfgC7 : PlayoutConfig := { cfgB with out := { mode := OutputMode.HLS } }

/-- C7 input: an item with an audio stream but no video stream. -/
def nodeC7 : Media := { nodeB with probe := some ⟨[], [⟨some "10.0"⟩]⟩ }

/-- C9 input: configured target fps of 0, target aspect 16:9. -/
def cfgC9 : PlayoutConfig :=
  { cfgB with processing := { cfgB.processing with fps := 0 } }

/-- C9 witness input: a metadata-less item (no probe at all). -/
def nodeC9 : Media := { nodeB with probe := none }

/-- C2 witness input: two configured audio tracks. -/
def cfgC2 : PlayoutConfig :=
  { cfgB with processing := { cfgB.processing with audio_tracks := 2 } }

/-- C2 witness: the builder state of the run on `cfgC2`/`nodeB`. -/
def stC2 : Filters :=
  (filter_chains_state extB cfgC2 nodeB).getD (Filters.new 0)

/-- C10 witness input: audio stream 0 lasts 5 s, audio stream 1 lasts 100 s,
on a ten-second item. -/
def nodeC10a : Media :=
  { nodeB with probe := some ⟨[], [⟨some "5.0"⟩, ⟨some "100.0"⟩]⟩ }

/-- C10 witness input: like `nodeC10a` but with no audio stream 1 at all. -/
def nodeC10b : Media :=
  { nodeB with probe := some ⟨[], [⟨some "5.0"⟩]⟩ }

/-! ## Theorems

First, infrastructure about decimal rendering (`Nat.repr`), needed to show
track labels are pairwise distinct. -/

open FilterType

theorem toDigitsCore_ten (n : Nat) :
    ∀ fuel ds, n < fuel → Nat.toDigitsCore 10 fuel n ds = natChars n ++ ds := by
  induction n using Nat.strong_induction_on with
  | _ n ih =>
    intro fuel ds hfuel
    match fuel, hfuel with
    | fuel + 1, hfuel =>
      rw [Nat.toDigitsCore]
      by_cases h : n < 10
      · have hdiv : n / 10 = 0 := Nat.div_eq_of_lt h
        simp only [hdiv, if_true]
        rw [natChars]
        simp [h, Nat.mod_eq_of_lt h]
      · have hdiv : n / 10 ≠ 0 := by
          have : 10 ≤ n := Nat.le_of_not_lt h
          omega
        simp only [hdiv, if_false]
        have hlt : n / 10 < n := Nat.div_lt_self (by omega) (by norm_num)
        rw [ih (n / 10) hlt fuel (Nat.digitChar (n % 10) :: ds) (by omega)]
        conv_rhs => rw [natChars]
        simp [h, List.append_assoc]

theorem natRepr_eq_natChars (n : Nat) : Nat.repr n = (natChars n).asString := by
  show (Nat.toDigits 10 n).asString = (natChars n).asString
  rw [Nat.toDigits, toDigitsCore_ten n (n + 1) [] (by omega)]
  simp

theorem digitChar_toNat {k : Nat} (h : k < 10) : (Nat.digitChar k).toNat = 48 + k := by
  interval_cases k <;> rfl

theorem digitsNat_append_single (l : List Char) (c : Char) :
    digitsNat (l ++ [c]) = digitsNat l * 10 + (c.toNat - 48) := by
  simp [digitsNat, List.foldl_append]

theorem digitsNat_natChars (n : Nat) : digitsNat (natChars n) = n := by
  induction n using Nat.strong_induction_on with
  | _ n ih =>
    by_cases h : n < 10
    · rw [natChars]
      simp only [h, dif_pos]
      simp [digitsNat, digitChar_toNat h]
    · rw [natChars]
      simp only [h, dif_neg, not_false_iff]
      rw [digitsNat_append_single,
        ih (n / 10) (Nat.div_lt_self (by omega) (by norm_num)),
        digitChar_toNat (Nat.mod_lt n (by norm_num))]
      omega

theorem natRepr_inj {m n : Nat} (h : Nat.repr m = Nat.repr n) : m = n := by
  rw [natRepr_eq_natChars, natRepr_eq_natChars] at h
  have hd : natChars m = natChars n := congrArg String.data h
  have := congrArg digitsNat hd
  rwa [digitsNat_natChars, digitsNat_natChars] at this

theorem toString_ofNat (m : Nat) : toString ((m : Nat) : Int) = Nat.repr m := rfl

theorem label_audio_inj {i j : Nat}
    (h : label Audio (i : Int) = label Audio (j : Int)) : i = j := by
  have hd := congrArg String.data h
  simp only [label, String.data_append] at hd
  have h2 := (List.append_inj' hd rfl).1
  have h3 := List.append_cancel_left h2
  have h4 : toString ((i : Nat) : Int) = toString ((j : Nat) : Int) := by
    apply String.ext
    exact h3
  rw [toString_ofNat, toString_ofNat] at h4
  exact natRepr_inj h4

theorem label_video_ne_audio (n m : Int) : label Video n ≠ label Audio m := by
  intro h
  have h1 : (label Video n).data[1]? = some 'v' := rfl
  rw [h] at h1
  have h2 : (label Audio m).data[1]? = some 'a' := rfl
  rw [h2] at h1
  simp at h1

theorem aLabels_nodup (n : Nat) : (aLabels n).Nodup := by
  unfold aLabels
  have hinj : Function.Injective (fun i : Nat => label Audio (i : Int)) :=
    fun a b hab => label_audio_inj hab
  exact List.Nodup.map hinj (List.nodup_range n)

theorem vout_not_mem_aLabels (n : Nat) : label Video 0 ∉ aLabels n := by
  intro h
  rcases List.mem_map.1 h with ⟨i, _, hi⟩
  exact label_video_ne_audio 0 (i : Int) hi.symm

/-! Structural lemmas about `Filters.add_filter`: a same-track call keeps all
bookkeeping, a different-track call opens exactly one labeled segment, and a
call of one kind never touches the other kind's state. -/

theorem addA_keep (st : Filters) (f : String) (n : Int) (h : st.audio_last = n) :
    (st.add_filter f n Audio).audio_map = st.audio_map ∧
    (st.add_filter f n Audio).output_map = st.output_map ∧
    (st.add_filter f n Audio).audio_last = st.audio_last ∧
    (st.add_filter f n Audio).video_map = st.video_map ∧
    (st.add_filter f n Audio).video_last = st.video_last ∧
    (st.add_filter f n Audio).video_chain = st.video_chain ∧
    (st.add_filter f n Audio).audio_position = st.audio_position ∧
    (st.add_filter f n Audio).video_position = st.video_position := by
  subst h
  simp only [Filters.add_filter, ne_eq, not_true_eq_false, if_false]
  split <;> simp

theorem addA_open (st : Filters) (f : String) (n : Int) (h : st.audio_last ≠ n) :
    (st.add_filter f n Audio).audio_map = st.audio_map ++ [label Audio n] ∧
    (st.add_filter f n Audio).output_map = st.output_map ++ ["-map", label Audio n] ∧
    (st.add_filter f n Audio).audio_last = n ∧
    (st.add_filter f n Audio).video_map = st.video_map ∧
    (st.add_filter f n Audio).video_last = st.video_last ∧
    (st.add_filter f n Audio).video_chain = st.video_chain ∧
    (st.add_filter f n Audio).audio_position = st.audio_position ∧
    (st.add_filter f n Audio).video_position = st.video_position := by
  simp [Filters.add_filter, h]

theorem addV_keep (st : Filters) (f : String) (n : Int) (h : st.video_last = n) :
    (st.add_filter f n Video).video_map = st.video_map ∧
    (st.add_filter f n Video).output_map = st.output_map ∧
    (st.add_filter f n Video).video_last = st.video_last ∧
    (st.add_filter f n Video).audio_map = st.audio_map ∧
    (st.add_filter f n Video).audio_last = st.audio_last ∧
    (st.add_filter f n Video).audio_chain = st.audio_chain ∧
    (st.add_filter f n Video).audio_position = st.audio_position ∧
    (st.add_filter f n Video).video_position = st.video_position := by
  subst h
  simp only [Filters.add_filter, ne_eq, not_true_eq_false, if_false]
  split <;> simp

theorem addV_open (st : Filters) (f : String) (n : Int) (h : st.video_last ≠ n) :
    (st.add_filter f n Video).video_map = st.video_map ++ [label Video n] ∧
    (st.add_filter f n Video).output_map = st.output_map ++ ["-map", label Video n] ∧
    (st.add_filter f n Video).video_last = n ∧
    (st.add_filter f n Video).audio_map = st.audio_map ∧
    (st.add_filter f n Video).audio_last = st.audio_last ∧
    (st.add_filter f n Video).audio_chain = st.audio_chain ∧
    (st.add_filter f n Video).audio_position = st.audio_position ∧
    (st.add_filter f n Video).video_position = st.video_position := by
  simp [Filters.add_filter, h]

theorem stringAppend3_data (a b c d : String) :
    (((a ++ b) ++ c) ++ d).data = a.data ++ (b.data ++ (c.data ++ d.data)) := by
  simp [List.append_assoc]

theorem chain_append_suffix (s A B C f : String) (hC : f.data <:+ C.data) :
    ∃ t, (((s ++ A) ++ B) ++ C).data = s.data ++ t ∧ f.data <:+ t :=
  ⟨A.data ++ (B.data ++ C.data), stringAppend3_data s A B C,
    hC.trans ((List.suffix_append _ _).trans (List.suffix_append _ _))⟩

theorem chain_append_one_suffix (s f : String) :
    ∃ t, (s ++ f).data = s.data ++ t ∧ f.data <:+ t :=
  ⟨f.data, by rw [String.data_append], List.suffix_rfl⟩

theorem chain_append_comma_suffix (s f : String) :
    ∃ t, ((s ++ ",") ++ f).data = s.data ++ t ∧ f.data <:+ t :=
  ⟨",".data ++ f.data, by rw [String.data_append, String.data_append, List.append_assoc],
    List.suffix_append _ _⟩

theorem addA_chain (st : Filters) (f : String) (n : Int) :
    ∃ t, (st.add_filter f n Audio).audio_chain.data = st.audio_chain.data ++ t ∧
      f.data <:+ t := by
  by_cases h : st.audio_last = n
  · subst h
    simp only [Filters.add_filter, ne_eq, not_true_eq_false, if_false]
    split
    · exact chain_append_one_suffix _ _
    · exact chain_append_comma_suffix _ _
  · simp only [Filters.add_filter, ne_eq, h, not_false_iff, if_true]
    refine chain_append_suffix _ _ _ _ _ ?_
    split
    · exact List.suffix_rfl
    · rw [String.data_append]
      exact List.suffix_append _ _

theorem addV_chain (st : Filters) (f : String) (n : Int) :
    ∃ t, (st.add_filter f n Video).video_chain.data = st.video_chain.data ++ t ∧
      f.data <:+ t := by
  by_cases h : st.video_last = n
  · subst h
    simp only [Filters.add_filter, ne_eq, not_true_eq_false, if_false]
    split
    · exact chain_append_one_suffix _ _
    · exact chain_append_comma_suffix _ _
  · simp only [Filters.add_filter, ne_eq, h, not_false_iff, if_true]
    refine chain_append_suffix _ _ _ _ _ ?_
    split
    · exact List.suffix_rfl
    · rw [String.data_append]
      exact List.suffix_append _ _

theorem data_empty : ("" : String).data = [] := rfl

/-! ### Claim C1 -/

/-- C1 — Chain-builder continuation invariant: within one invocation, an
`add_filter` call whose track number equals the kind's last-written track
extends the currently open segment (appending the fragment verbatim or
behind a comma) and introduces neither a new input selector prefix nor a new
output label (both label maps and the output mapping are untouched); a call
whose track number differs closes the previously open segment exactly once
(appending its closing label and the `;` separator — nothing when no segment
is open yet) and opens exactly one new labeled segment, sourced from the raw
input selector unless the fragment is a self-contained generator. -/
theorem C1_chain_continuation (st : Filters) (f : String) (n : Int) (ft : FilterType) :
    (lastOf st ft = n →
      mapOf (st.add_filter f n ft) ft = mapOf st ft ∧
      (st.add_filter f n ft).output_map = st.output_map ∧
      lastOf (st.add_filter f n ft) ft = n ∧
      (chainOf (st.add_filter f n ft) ft = chainOf st ft ++ f ∨
        chainOf (st.add_filter f n ft) ft = chainOf st ft ++ "," ++ f)) ∧
    (lastOf st ft ≠ n →
      mapOf (st.add_filter f n ft) ft = mapOf st ft ++ [label ft n] ∧
      (st.add_filter f n ft).output_map = st.output_map ++ ["-map", label ft n] ∧
      lastOf (st.add_filter f n ft) ft = n ∧
      ∃ sel, (sel = "" ∨ sel = "[" ++ toString (posOf st ft) ++ ":" ++ ftStr ft ++ ":"
          ++ toString n ++ "]") ∧
        chainOf (st.add_filter f n ft) ft =
          chainOf st ft
            ++ (if chainOf st ft = "" then "" else label ft (lastOf st ft) ++ ";")
            ++ sel ++ f) := by
  cases ft with
  | Audio =>
    constructor
    · intro h
      have h0 : st.audio_last = n := h
      obtain ⟨h1, h2, h3, _⟩ := addA_keep st f n h0
      refine ⟨h1, h2, by simp [lastOf, h3, h0], ?_⟩
      subst h0
      simp only [Filters.add_filter, ne_eq, not_true_eq_false, if_false, chainOf]
      split
      · left; rfl
      · right; rfl
    · intro h
      have h0 : st.audio_last ≠ n := h
      obtain ⟨h1, h2, h3, _⟩ := addA_open st f n h0
      refine ⟨h1, h2, by simp [lastOf, h3], ?_⟩
      simp only [Filters.add_filter, ne_eq, h0, not_false_iff, if_true, chainOf,
        lastOf, posOf]
      by_cases hg : (f.startsWith "aevalsrc" = true ∨ f.startsWith "movie" = true)
      · refine ⟨"", Or.inl rfl, ?_⟩
        apply String.ext
        by_cases hc : st.audio_chain = "" <;>
          simp [hg, hc, data_empty, String.data_append, List.append_assoc]
      · refine ⟨"[" ++ toString st.audio_position ++ ":" ++ ftStr Audio ++ ":"
          ++ toString n ++ "]", Or.inr rfl, ?_⟩
        apply String.ext
        by_cases hc : st.audio_chain = "" <;>
          simp [hg, hc, data_empty, String.data_append, List.append_assoc]
  | Video =>
    constructor
    · intro h
      have h0 : st.video_last = n := h
      obtain ⟨h1, h2, h3, _⟩ := addV_keep st f n h0
      refine ⟨h1, h2, by simp [lastOf, h3, h0], ?_⟩
      subst h0
      simp only [Filters.add_filter, ne_eq, not_true_eq_false, if_false, chainOf]
      split
      · left; rfl
      · right; rfl
    · intro h
      have h0 : st.video_last ≠ n := h
      obtain ⟨h1, h2, h3, _⟩ := addV_open st f n h0
      refine ⟨h1, h2, by simp [lastOf, h3], ?_⟩
      simp only [Filters.add_filter, ne_eq, h0, not_false_iff, if_true, chainOf,
        lastOf, posOf]
      by_cases hg : (f.startsWith "aevalsrc" = true ∨ f.startsWith "movie" = true)
      · refine ⟨"", Or.inl rfl, ?_⟩
        apply String.ext
        by_cases hc : st.video_chain = "" <;>
          simp [hg, hc, data_empty, String.data_append, List.append_assoc]
      · refine ⟨"[" ++ toString st.video_position ++ ":" ++ ftStr Video ++ ":"
          ++ toString n ++ "]", Or.inr rfl, ?_⟩
        apply String.ext
        by_cases hc : st.video_chain = "" <;>
          simp [hg, hc, data_empty, String.data_append, List.append_assoc]

/-- C1 witness: the different-track case of `C1_chain_continuation`
evaluated on a fresh builder with the `anull` fragment at audio track 0. -/
theorem C1_chain_continuation_witness :
    mapOf ((Filters.new 0).add_filter "anull" 0 Audio) Audio
        = mapOf (Filters.new 0) Audio ++ [label Audio 0] ∧
    ((Filters.new 0).add_filter "anull" 0 Audio).output_map
        = (Filters.new 0).output_map ++ ["-map", label Audio 0] ∧
    lastOf ((Filters.new 0).add_filter "anull" 0 Audio) Audio = 0 :=
  ⟨((C1_chain_continuation (Filters.new 0) "anull" 0 Audio).2 (by decide)).1,
    ((C1_chain_continuation (Filters.new 0) "anull" 0 Audio).2 (by decide)).2.1,
    ((C1_chain_continuation (Filters.new 0) "anull" 0 Audio).2 (by decide)).2.2.1⟩

/-! ### Claim C4 -/

/-- C4 — Aspect-ratio calculator contract: `aspect_calc` returns the
configured target aspect when the ratio string is absent; returns `W/H`
when a present `"W:H"` string has two `:`-separated components that both
parse as floats; and on malformed numeric text (either component failing to
parse, or no second component at all) it fails hard — graph construction
for the item aborts (modelled as `none`, the `unwrap` panic) — rather than
silently falling back to the configured aspect. -/
theorem C4_aspect_calc_contract (config : PlayoutConfig) :
    (aspect_calc none config = some config.processing.aspect) ∧
    (∀ s ws hs w h, (s.splitOn ":")[0]? = some ws →
      (s.splitOn ":")[1]? = some hs →
      parseF64 ws = some w → parseF64 hs = some h →
      aspect_calc (some s) config = some (w / h)) ∧
    (∀ s ws, (s.splitOn ":")[0]? = some ws → parseF64 ws = none →
      aspect_calc (some s) config = none) ∧
    (∀ s hs, (s.splitOn ":")[1]? = some hs → parseF64 hs = none →
      aspect_calc (some s) config = none) ∧
    (∀ s, (s.splitOn ":")[1]? = none → aspect_calc (some s) config = none) ∧
    (∀ ext node p vs, node.probe = some p → p.video_streams[0]? = some vs →
      aspect_calc vs.display_aspect_ratio config = none →
      filter_chains ext config node = none) := by
  refine ⟨rfl, ?_, ?_, ?_, ?_, ?_⟩
  · intro s ws hs w h h0 h1 hw hh
    simp [aspect_calc, h0, h1, hw, hh]
  · intro s ws h0 hw
    cases h1 : (s.splitOn ":")[1]? with
    | none => simp [aspect_calc, h0, h1]
    | some hs =>
        cases hh : parseF64 hs <;> simp [aspect_calc, h0, h1, hw, hh]
  · intro s hs h1 hh
    cases h0 : (s.splitOn ":")[0]? with
    | none => simp [aspect_calc, h0, h1]
    | some ws =>
        cases hw : parseF64 ws <;> simp [aspect_calc, h0, h1, hw, hh]
  · intro s h1
    cases h0 : (s.splitOn ":")[0]? <;> simp [aspect_calc, h0, h1]
  · intro ext node p vs hp hv habort
    simp [filter_chains, filter_chains_state, probe_video, hp, hv,
      video_geometry, habort]

/-- C4 witness: the fallback, well-formed, and two malformed cases of
`C4_aspect_calc_contract` evaluated on concrete ratio strings. -/
theorem C4_aspect_calc_contract_witness :
    aspect_calc none cfgB = some cfgB.processing.aspect ∧
    aspect_calc (some "16:9") cfgB = some (16 / 9) ∧
    aspect_calc (some "16:x") cfgB = none ∧
    aspect_calc (some "169") cfgB = none :=
  ⟨(C4_aspect_calc_contract cfgB).1,
    (C4_aspect_calc_contract cfgB).2.1 "16:9" "16" "9" 16 9
      (by with_unfolding_all decide) (by with_unfolding_all decide)
      (by with_unfolding_all decide) (by with_unfolding_all decide),
    (C4_aspect_calc_contract cfgB).2.2.2.1 "16:x" "x"
      (by with_unfolding_all decide) (by with_unfolding_all decide),
    (C4_aspect_calc_contract cfgB).2.2.2.2.1 "169"
      (by with_unfolding_all decide)⟩

/-! ### Claim C5 -/

/-- C5 counterexample: the claim says that `out = duration` and `seek = 0`
suffice for the fade step to produce no fragments, with no further
precondition (explicitly regardless of `is_live`).  On the live item
`nodeC5` (`out = duration = 10`, `seek = 0`, `is_live = some true`) the
fade step does append a fade-in fragment to a fresh builder. -/
theorem C5_counterexample :
    (Filters.new 0).video_chain = "" ∧
    (fade nodeC5 (Filters.new 0) 0 Video).video_chain
      = "[0:v:0]fade=in:st=0:d=0.5" := by
  constructor <;> with_unfolding_all decide

/-- C5 amended: for every media item with `out = duration` and `seek = 0`
that is not live (`is_live ≠ some true`), the fade step produces no fade-in
and no fade-out fragment — it returns the builder unchanged — for every
track number and kind. -/
theorem C5_amended_no_fade (node : Media) (st : Filters) (nr : Int)
    (ft : FilterType) (hout : node.out = node.duration) (hseek : node.seek = 0)
    (hlive : node.is_live ≠ some true) :
    fade node st nr ft = st := by
  simp [fade, hseek, hout, hlive]

/-- C5 amended witness: `C5_amended_no_fade` evaluated on the non-live item
`nodeB` (`out = duration = 10`, `seek = 0`). -/
theorem C5_amended_no_fade_witness :
    fade nodeB (Filters.new 0) 0 Video = Filters.new 0 ∧
    fade nodeB (Filters.new 0) 0 Audio = Filters.new 0 :=
  ⟨C5_amended_no_fade nodeB (Filters.new 0) 0 Video
      (by with_unfolding_all decide) (by with_unfolding_all decide)
      (by with_unfolding_all decide),
    C5_amended_no_fade nodeB (Filters.new 0) 0 Audio
      (by with_unfolding_all decide) (by with_unfolding_all decide)
      (by with_unfolding_all decide)⟩

/-! ### Claim C6 -/

/-- C6 — Realtime speed bound: the speed filter string computed by the
realtime step is either exactly `realtime=speed=1`, or it is
`realtime=speed=<factor>` for the factor `duration/(duration+delta)` with
`0 < factor < 1.1` — and the latter only when a scheduled begin exists,
`delta < 0`, `seek = 0`, the factor lies in `(0, 1.1)`, and `delta` is
below the configured stop threshold; in every other case the emitted speed
is exactly 1.  Moreover the realtime step either leaves the builder
untouched or appends exactly this string to the video chain at track 0. -/
theorem C6_realtime_speed_bound (ext : Externals) (config : PlayoutConfig)
    (node : Media) (st : Filters) :
    (realtime_speed_filter ext config node = "realtime=speed=1" ∨
      ∃ b, node.begin = some b ∧
        ext.getDelta config b < 0 ∧ node.seek = 0 ∧
        (node.out - node.seek) / (node.out - node.seek + ext.getDelta config b) > 0 ∧
        (node.out - node.seek) / (node.out - node.seek + ext.getDelta config b) < 11 / 10 ∧
        ext.getDelta config b < config.general.stop_threshold ∧
        realtime_speed_filter ext config node = "realtime=speed="
          ++ fmtQ ((node.out - node.seek) / (node.out - node.seek + ext.getDelta config b))) ∧
    (realtime node st config ext = st ∨
      realtime node st config ext
        = st.add_filter (realtime_speed_filter ext config node) 0 Video) := by
  constructor
  · cases hb : node.begin with
    | none => left; simp [realtime_speed_filter, hb]
    | some b =>
        simp only [realtime_speed_filter, hb]
        by_cases h1 : ext.getDelta config b < 0 ∧ node.seek = 0
        · rw [if_pos h1]
          by_cases h2 : (node.out - node.seek) / (node.out - node.seek + ext.getDelta config b) > 0
              ∧ (node.out - node.seek) / (node.out - node.seek + ext.getDelta config b) < 11 / 10
              ∧ ext.getDelta config b < config.general.stop_threshold
          · right
            exact ⟨b, rfl, h1.1, h1.2, h2.1, h2.2.1, h2.2.2, by rw [if_pos h2]⟩
          · left; rw [if_neg h2]
        · left; rw [if_neg h1]
  · by_cases hc : config.general.generate = none ∧ config.out.mode = OutputMode.HLS
    · right; rw [realtime, if_pos hc]
    · left; rw [realtime, if_neg hc]

/-! ### Claim C7 -/

theorem addV_audio_frozen (st : Filters) (f : String) (n : Int) :
    (st.add_filter f n Video).audio_chain = st.audio_chain ∧
    (st.add_filter f n Video).audio_map = st.audio_map ∧
    (st.add_filter f n Video).audio_last = st.audio_last ∧
    (st.add_filter f n Video).audio_position = st.audio_position := by
  by_cases h : st.video_last = n
  · obtain ⟨_, _, _, h4, h5, h6, h7, _⟩ := addV_keep st f n h
    exact ⟨h6, h4, h5, h7⟩
  · obtain ⟨_, _, _, h4, h5, h6, h7, _⟩ := addV_open st f n h
    exact ⟨h6, h4, h5, h7⟩

theorem addA_video_frozen (st : Filters) (f : String) (n : Int) :
    (st.add_filter f n Audio).video_chain = st.video_chain ∧
    (st.add_filter f n Audio).video_map = st.video_map ∧
    (st.add_filter f n Audio).video_last = st.video_last ∧
    (st.add_filter f n Audio).video_position = st.video_position := by
  by_cases h : st.audio_last = n
  · obtain ⟨_, _, _, h4, h5, h6, _, h8⟩ := addA_keep st f n h
    exact ⟨h6, h4, h5, h8⟩
  · obtain ⟨_, _, _, h4, h5, h6, _, h8⟩ := addA_open st f n h
    exact ⟨h6, h4, h5, h8⟩

theorem realtime_filter_starts (ext : Externals) (config : PlayoutConfig)
    (node : Media) :
    "realtime=speed=".data <+: (realtime_speed_filter ext config node).data := by
  cases hb : node.begin with
  | none =>
      have he : realtime_speed_filter ext config node = "realtime=speed=1" := by
        simp [realtime_speed_filter, hb]
      rw [he]
      decide
  | some b =>
      simp only [realtime_speed_filter, hb]
      by_cases h1 : ext.getDelta config b < 0 ∧ node.seek = 0
      · rw [if_pos h1]
        by_cases h2 : (node.out - node.seek) / (node.out - node.seek + ext.getDelta config b) > 0
            ∧ (node.out - node.seek) / (node.out - node.seek + ext.getDelta config b) < 11 / 10
            ∧ ext.getDelta config b < config.general.stop_threshold
        · rw [if_pos h2, String.data_append]
          exact List.prefix_append _ _
        · rw [if_neg h2]
          decide
      · rw [if_neg h1]
        decide

/-- C7 counterexample: the claim says that in HLS mode with the generation
flag unset a realtime speed fragment is appended to the audio chain as well.
On the concrete HLS run `extB`/`cfgC7`/`nodeC7` (one configured audio track,
audio stream present) the final audio chain is `[0:a:0]anull[aout0]`, which
contains no realtime fragment, while the video chain does get one. -/
theorem C7_counterexample :
    (filter_chains_state extB cfgC7 nodeC7).map Filters.audio_chain
        = some "[0:a:0]anull[aout0]" ∧
    ¬ ("realtime".data <:+: "[0:a:0]anull[aout0]".data) ∧
    (filter_chains_state extB cfgC7 nodeC7).map Filters.video_chain
        = some "[0:v:0]realtime=speed=1[vout0]" := by
  refine ⟨?_, ?_, ?_⟩ <;> with_unfolding_all decide

/-- C7 amended: the realtime step never touches the audio chain (for any
item and configuration); in HLS mode with the generation flag unset it
appends a fragment carrying `realtime=speed=` to the video chain (track 0)
only. -/
theorem C7_amended_realtime_video_only (ext : Externals) (config : PlayoutConfig)
    (node : Media) (st : Filters) :
    (realtime node st config ext).audio_chain = st.audio_chain ∧
    (realtime node st config ext).audio_map = st.audio_map ∧
    (config.general.generate = none ∧ config.out.mode = OutputMode.HLS →
      ∃ t, (realtime node st config ext).video_chain.data
          = st.video_chain.data ++ t ∧ "realtime=speed=".data <:+: t) := by
  by_cases hc : config.general.generate = none ∧ config.out.mode = OutputMode.HLS
  · rw [realtime, if_pos hc]
    obtain ⟨h1, h2, _, _⟩ := addV_audio_frozen st (realtime_speed_filter ext config node) 0
    refine ⟨h1, h2, fun _ => ?_⟩
    obtain ⟨t, ht, hsuf⟩ := addV_chain st (realtime_speed_filter ext config node) 0
    exact ⟨t, ht, (realtime_filter_starts ext config node).isInfix.trans hsuf.isInfix⟩
  · rw [realtime, if_neg hc]
    exact ⟨rfl, rfl, fun h => absurd h hc⟩

/-- C7 amended witness: `C7_amended_realtime_video_only` evaluated on the
HLS configuration `cfgC7`, with the HLS hypothesis discharged concretely. -/
theorem C7_amended_realtime_video_only_witness :
    (realtime nodeB (Filters.new 0) cfgC7 extB).audio_chain
        = (Filters.new 0).audio_chain ∧
    ∃ t, (realtime nodeB (Filters.new 0) cfgC7 extB).video_chain.data
        = (Filters.new 0).video_chain.data ++ t ∧ "realtime=speed=".data <:+: t :=
  ⟨(C7_amended_realtime_video_only extB cfgC7 nodeB (Filters.new 0)).1,
    (C7_amended_realtime_video_only extB cfgC7 nodeB (Filters.new 0)).2.2
      ⟨rfl, rfl⟩⟩

/-! ### Claim C9 -/

theorem infix_ne_nil {x t : List Char} (hx : x ≠ []) (h : x <:+: t) : t ≠ [] := by
  intro he
  subst he
  exact hx (List.eq_nil_of_sublist_nil h.sublist)

/-- C9 counterexample: the claim says the metadata-less branch runs
frame-rate-normalize with 0 fps forcing a rate change.  With a configured
target fps of 0 (`cfgC9`) the branch emits no `fps=` fragment at all — the
video chain it builds is only the forced scale plus aspect tag. -/
theorem C9_counterexample :
    (no_probe_video cfgC9 (Filters.new 0)).video_chain
        = "[0:v:0]scale=1024:576,setdar=dar=16/9" ∧
    ¬ ("fps=".data <:+: (no_probe_video cfgC9 (Filters.new 0)).video_chain.data) := by
  constructor <;> with_unfolding_all decide

/-- C9 amended: for every item without probe metadata the orchestrator takes
the fallback branch, which appends a scale fragment and a `setdar` aspect
tag unconditionally — so the video chain always grows (is usable) — and
appends a rate-change `fps=` fragment whenever the configured target fps is
nonzero (the 0 source fps forces the change against any nonzero target). -/
theorem C9_amended_metadata_less (config : PlayoutConfig) (node : Media)
    (st : Filters) (hprobe : node.probe = none) :
    probe_video config node st = some (no_probe_video config st) ∧
    ∃ t, (no_probe_video config st).video_chain.data = st.video_chain.data ++ t ∧
      "scale=".data <:+: t ∧ "setdar=dar=".data <:+: t ∧
      (config.processing.fps ≠ 0 → "fps=".data <:+: t) ∧ t ≠ [] := by
  refine ⟨by simp [probe_video, hprobe], ?_⟩
  rw [no_probe_video]
  obtain ⟨t0, ht0, hfps0⟩ : ∃ t0,
      (fpsStep 0 st config).video_chain.data = st.video_chain.data ++ t0 ∧
      (config.processing.fps ≠ 0 → "fps=".data <:+: t0) := by
    by_cases hf : config.processing.fps = 0
    · refine ⟨[], ?_, fun hne => absurd hf hne⟩
      rw [fpsStep, if_neg (by simp [hf])]
      simp
    · rw [fpsStep, if_pos (Ne.symm hf)]
      obtain ⟨t0, ht0, hsuf⟩ := addV_chain st ("fps=" ++ fmtQ config.processing.fps) 0
      refine ⟨t0, ht0, fun _ => ?_⟩
      have hpre : "fps=".data <+: ("fps=" ++ fmtQ config.processing.fps).data := by
        rw [String.data_append]
        exact List.prefix_append _ _
      exact hpre.isInfix.trans hsuf.isInfix
  simp only [scale]
  obtain ⟨t1, ht1, hsuf1⟩ := addV_chain (fpsStep 0 st config)
    ("scale=" ++ toString config.processing.width ++ ":"
      ++ toString config.processing.height) 0
  obtain ⟨t2, ht2, hsuf2⟩ := addV_chain
    ((fpsStep 0 st config).add_filter
      ("scale=" ++ toString config.processing.width ++ ":"
        ++ toString config.processing.height) 0 Video)
    ("setdar=dar=" ++ fmtQ config.processing.aspect) 0
  have hscalepre : "scale=".data <+: ("scale=" ++ toString config.processing.width
      ++ ":" ++ toString config.processing.height).data := by
    rw [String.data_append, String.data_append, String.data_append]
    exact ((List.prefix_append _ _).trans (List.prefix_append _ _)).trans
      (List.prefix_append _ _)
  have hdarpre : "setdar=dar=".data <+: ("setdar=dar="
      ++ fmtQ config.processing.aspect).data := by
    rw [String.data_append]
    exact List.prefix_append _ _
  have hscale_t : "scale=".data <:+: t0 ++ (t1 ++ t2) :=
    ((hscalepre.isInfix.trans hsuf1.isInfix).trans
      (List.prefix_append t1 t2).isInfix).trans
      (List.suffix_append t0 (t1 ++ t2)).isInfix
  refine ⟨t0 ++ (t1 ++ t2), ?_, hscale_t, ?_, ?_, ?_⟩
  · rw [ht2, ht1, ht0]
    simp [List.append_assoc]
  · exact ((hdarpre.isInfix.trans hsuf2.isInfix).trans
      (List.suffix_append t1 t2).isInfix).trans
      (List.suffix_append t0 (t1 ++ t2)).isInfix
  · intro hne
    exact (hfps0 hne).trans (List.prefix_append t0 (t1 ++ t2)).isInfix
  · exact infix_ne_nil (by decide) hscale_t

/-- C9 amended witness: `C9_amended_metadata_less` evaluated on the
probe-less item `nodeC9` under `cfgB` (target fps 25 ≠ 0), extracting the
forced scale fragment and the rate-change fragment. -/
theorem C9_amended_metadata_less_witness :
    probe_video cfgB nodeC9 (Filters.new 0)
        = some (no_probe_video cfgB (Filters.new 0)) ∧
    ∃ t, (no_probe_video cfgB (Filters.new 0)).video_chain.data
        = (Filters.new 0).video_chain.data ++ t ∧
      "scale=".data <:+: t ∧ "fps=".data <:+: t := by
  obtain ⟨h1, t, h2, h3, _, h5, _⟩ :=
    C9_amended_metadata_less cfgB nodeC9 (Filters.new 0) rfl
  exact ⟨h1, t, h2, h3, h5 (by with_unfolding_all decide)⟩

/-! ### Claim C10 -/

theorem extend_audio_eq (node : Media) (st : Filters) (nr : Int) :
    extend_audio node st nr =
      match audio_dur0 node with
      | some audio_duration =>
          if node.out - node.seek > audio_duration - node.seek + 1 / 10
              ∧ node.duration ≥ node.out then
            st.add_filter ("apad=whole_dur=" ++ fmtQ (node.out - node.seek)) nr Audio
          else st
      | none => st := rfl

theorem extend_audio_none (node : Media) (st : Filters) (nr : Int)
    (h : audio_dur0 node = none) : extend_audio node st nr = st := by
  rw [extend_audio_eq, h]

theorem extend_audio_some (node : Media) (st : Filters) (nr : Int) (d : ℚ)
    (h : audio_dur0 node = some d) :
    extend_audio node st nr =
      if node.out - node.seek > d - node.seek + 1 / 10 ∧ node.duration ≥ node.out then
        st.add_filter ("apad=whole_dur=" ++ fmtQ (node.out - node.seek)) nr Audio
      else st := by
  rw [extend_audio_eq, h]

/-- C10 — implicit: `extend_audio`'s decision reads only the parsed duration
of audio stream index 0 of the selected probe (file probe when a separate
audio file exists, else the item probe) and the item's `out`/`seek`/
`duration`; it never reads stream `nr`.  Two items agreeing on those data
behave identically, and for a fixed item the decision and the appended
fragment are the same for every track number `nr` — in particular for
`nr ≥ 1`, even though the orchestrator gated the call on stream `nr`'s
presence. -/
theorem C10_extend_audio_uses_stream0 (node node2 : Media) (st : Filters)
    (nr nr2 : Int) (hdur : audio_dur0 node = audio_dur0 node2)
    (hout : node.out = node2.out) (hseek : node.seek = node2.seek)
    (hd : node.duration = node2.duration) :
    extend_audio node st nr = extend_audio node2 st nr ∧
    (∃ frag, (extend_audio node st nr = st ∧ extend_audio node st nr2 = st) ∨
      (extend_audio node st nr = st.add_filter frag nr Audio ∧
        extend_audio node st nr2 = st.add_filter frag nr2 Audio)) := by
  constructor
  · rw [extend_audio_eq, extend_audio_eq, hdur, hout, hseek, hd]
  · cases hd0 : audio_dur0 node with
    | none =>
        rw [extend_audio_none node st nr hd0, extend_audio_none node st nr2 hd0]
        exact ⟨"", Or.inl ⟨rfl, rfl⟩⟩
    | some d =>
        rw [extend_audio_some node st nr d hd0, extend_audio_some node st nr2 d hd0]
        by_cases hc : node.out - node.seek > d - node.seek + 1 / 10
            ∧ node.duration ≥ node.out
        · rw [if_pos hc, if_pos hc]
          exact ⟨"apad=whole_dur=" ++ fmtQ (node.out - node.seek),
            Or.inr ⟨rfl, rfl⟩⟩
        · rw [if_neg hc, if_neg hc]
          exact ⟨"", Or.inl ⟨rfl, rfl⟩⟩

/-- C10 witness: `nodeC10a` (streams 0 and 1, stream 1 lasting 100 s) and
`nodeC10b` (stream 0 only) get identical extend-audio behaviour at track 1:
only stream 0's 5-second duration matters. -/
theorem C10_extend_audio_uses_stream0_witness :
    extend_audio nodeC10a (Filters.new 0) 1 = extend_audio nodeC10b (Filters.new 0) 1 :=
  (C10_extend_audio_uses_stream0 nodeC10a nodeC10b (Filters.new 0) 1 0
    (by with_unfolding_all decide) (by with_unfolding_all decide)
    (by with_unfolding_all decide) (by with_unfolding_all decide)).1

/-! ### Claim C8 -/

theorem ext_trans {a b c : String} (h1 : ∃ t, b.data = a.data ++ t)
    (h2 : ∃ t, c.data = b.data ++ t) : ∃ t, c.data = a.data ++ t := by
  rcases h1 with ⟨t1, h1⟩
  rcases h2 with ⟨t2, h2⟩
  exact ⟨t1 ++ t2, by rw [h2, h1, List.append_assoc]⟩

theorem ext_infix_trans {a b c : String} {x : List Char}
    (h1 : ∃ t, b.data = a.data ++ t ∧ x <:+: t)
    (h2 : ∃ t, c.data = b.data ++ t) :
    ∃ t, c.data = a.data ++ t ∧ x <:+: t := by
  rcases h1 with ⟨t1, h1, hx⟩
  rcases h2 with ⟨t2, h2⟩
  exact ⟨t1 ++ t2, by rw [h2, h1, List.append_assoc],
    hx.trans (List.prefix_append t1 t2).isInfix⟩

theorem addA_ext (st : Filters) (f : String) (n : Int) :
    ∃ t, (st.add_filter f n Audio).audio_chain.data = st.audio_chain.data ++ t := by
  obtain ⟨t, h, _⟩ := addA_chain st f n
  exact ⟨t, h⟩

theorem extend_audio_ext (node : Media) (st : Filters) (nr : Int) :
    ∃ t, (extend_audio node st nr).audio_chain.data = st.audio_chain.data ++ t := by
  cases hd0 : audio_dur0 node with
  | none =>
      rw [extend_audio_none node st nr hd0]
      exact ⟨[], by simp⟩
  | some d =>
      rw [extend_audio_some node st nr d hd0]
      split
      · exact addA_ext st _ nr
      · exact ⟨[], by simp⟩

theorem audio_dispatch_ext (node : Media) (i : Nat) (st : Filters) :
    ∃ t, (audio_dispatch node i st).audio_chain.data = st.audio_chain.data ++ t := by
  rw [audio_dispatch]
  split
  · exact extend_audio_ext node st i
  · split
    · exact addA_ext st _ i
    · exact ⟨[], by simp⟩

theorem add_loudnorm_ext (ext : Externals) (st : Filters) (config : PlayoutConfig)
    (nr : Int) :
    ∃ t, (add_loudnorm ext st config nr).audio_chain.data = st.audio_chain.data ++ t := by
  rw [add_loudnorm]
  split
  · exact addA_ext st _ nr
  · exact ⟨[], by simp⟩

theorem fade_audio_ext (node : Media) (st : Filters) (nr : Int) :
    ∃ t, (fade node st nr Audio).audio_chain.data = st.audio_chain.data ++ t := by
  have hsplit : fade node st nr Audio =
      (if node.out ≠ node.duration ∧ node.out - node.seek - 1 > 0 then
        (if node.seek > 0 ∨ node.is_live = some true then
          st.add_filter ("a" ++ "fade=in:st=0:d=0.5") nr Audio else st).add_filter
          ("a" ++ "fade=out:st=" ++ fmtQ (node.out - node.seek - 1) ++ ":d=1.0") nr Audio
      else (if node.seek > 0 ∨ node.is_live = some true then
          st.add_filter ("a" ++ "fade=in:st=0:d=0.5") nr Audio else st)) := rfl
  rw [hsplit]
  have hbase : ∃ t, (if node.seek > 0 ∨ node.is_live = some true then
      st.add_filter ("a" ++ "fade=in:st=0:d=0.5") nr Audio else st).audio_chain.data
        = st.audio_chain.data ++ t := by
    split
    · exact addA_ext st _ nr
    · exact ⟨[], by simp⟩
  split
  · exact ext_trans hbase (addA_ext _ _ nr)
  · exact hbase

theorem audio_volume_ext (st : Filters) (config : PlayoutConfig) (nr : Int) :
    ∃ t, (audio_volume st config nr).audio_chain.data = st.audio_chain.data ++ t := by
  rw [audio_volume]
  split
  · exact addA_ext st _ nr
  · exact ⟨[], by simp⟩

theorem custom_audio_ext (f : String) (st : Filters) (nr : Int) :
    ∃ t, (custom f st nr Audio).audio_chain.data = st.audio_chain.data ++ t := by
  rw [custom]
  split
  · exact addA_ext st _ nr
  · exact ⟨[], by simp⟩

/-- C8 — Per-audio-track exclusivity and `anull` presence: for every track
index, the dispatch at the head of the loop body runs `extend_audio` exactly
in the stream-or-file-present case, synthesizes silence (an `aevalsrc`
fragment) exactly when the track has no probed stream, no external audio
file exists and the item is not live, and does nothing in the remaining
(live) case — so at most one of silence-synthesis and extend-audio is
applied; `extend_audio` itself appends at most a single `apad` fragment
(never silence); and the loop body appends the structural `anull` fragment
to the track's chain in every case. -/
theorem C8_audio_track_exclusivity (ext : Externals) (config : PlayoutConfig)
    (proc_af list_af : String) (node : Media) (i : Nat) (st : Filters) :
    ((hasAudioStream node i = true ∨ node.audioIsFile = true) →
      audio_dispatch node i st = extend_audio node st (i : Int)) ∧
    (hasAudioStream node i = false → node.audioIsFile = false →
      node.is_live.getD false = false →
      audio_dispatch node i st = add_audio node st (i : Int) ∧
      ∃ t, (add_audio node st (i : Int)).audio_chain.data
          = st.audio_chain.data ++ t ∧ "aevalsrc".data <:+: t) ∧
    (hasAudioStream node i = false → node.audioIsFile = false →
      node.is_live.getD false = true → audio_dispatch node i st = st) ∧
    (extend_audio node st (i : Int) = st ∨
      extend_audio node st (i : Int)
        = st.add_filter ("apad=whole_dur=" ++ fmtQ (node.out - node.seek))
            (i : Int) Audio) ∧
    (∃ t, (audio_track_step ext config proc_af list_af node st i).audio_chain.data
        = st.audio_chain.data ++ t ∧ "anull".data <:+: t) := by
  refine ⟨?_, ?_, ?_, ?_, ?_⟩
  · intro h
    rw [audio_dispatch, if_pos]
    rcases h with h | h <;> simp [h]
  · intro h1 h2 h3
    constructor
    · rw [audio_dispatch, if_neg (by simp [h1, h2]), if_pos (by simp [h3])]
    · rw [add_audio]
      obtain ⟨t, ht, hsuf⟩ := addA_chain st
        ("aevalsrc=0:channel_layout=stereo:duration=" ++ fmtQ (node.out - node.seek)
          ++ ":sample_rate=48000") (i : Int)
      refine ⟨t, ht, ?_⟩
      have hpre : "aevalsrc".data <+:
          ("aevalsrc=0:channel_layout=stereo:duration=" ++ fmtQ (node.out - node.seek)
            ++ ":sample_rate=48000").data := by
        rw [String.data_append, String.data_append]
        exact ((List.prefix_append _ _).trans (List.prefix_append _ _)).trans
          (List.prefix_append _ _)
      exact hpre.isInfix.trans hsuf.isInfix
  · intro h1 h2 h3
    rw [audio_dispatch, if_neg (by simp [h1, h2]), if_neg (by simp [h3])]
  · cases hd0 : audio_dur0 node with
    | none => exact Or.inl (extend_audio_none node st (i : Int) hd0)
    | some d =>
        rw [extend_audio_some node st (i : Int) d hd0]
        split
        · exact Or.inr rfl
        · exact Or.inl rfl
  · rw [audio_track_step]
    have hanull : ∃ t, ((audio_dispatch node i st).add_filter "anull" (i : Int)
        Audio).audio_chain.data = st.audio_chain.data ++ t ∧ "anull".data <:+: t := by
      obtain ⟨t1, ht1⟩ := audio_dispatch_ext node i st
      obtain ⟨t2, ht2, hsuf⟩ := addA_chain (audio_dispatch node i st) "anull" (i : Int)
      exact ⟨t1 ++ t2, by rw [ht2, ht1, List.append_assoc],
        hsuf.isInfix.trans (List.suffix_append t1 t2).isInfix⟩
    exact ext_infix_trans (ext_infix_trans (ext_infix_trans (ext_infix_trans
      (ext_infix_trans hanull (add_loudnorm_ext ext _ config (i : Int)))
      (fade_audio_ext node _ (i : Int)))
      (audio_volume_ext _ config (i : Int)))
      (custom_audio_ext proc_af _ (i : Int)))
      (custom_audio_ext list_af _ (i : Int))

/-- C8 witness: on `nodeC3` (no audio streams, no audio file, not live) the
dispatch at track 0 synthesizes silence, with the `aevalsrc` fragment
appended. -/
theorem C8_audio_track_exclusivity_witness :
    audio_dispatch nodeC3 0 (Filters.new 0) = add_audio nodeC3 (Filters.new 0) 0 ∧
    ∃ t, (add_audio nodeC3 (Filters.new 0) 0).audio_chain.data
        = (Filters.new 0).audio_chain.data ++ t ∧ "aevalsrc".data <:+: t :=
  (C8_audio_track_exclusivity extB cfgB "" "" nodeC3 0 (Filters.new 0)).2.1
    (by with_unfolding_all decide) (by with_unfolding_all decide)
    (by with_unfolding_all decide)

/-! ### Claim C2 — machinery -/

theorem mapArgs_append (l1 l2 : List String) :
    mapArgs (l1 ++ l2) = mapArgs l1 ++ mapArgs l2 := by
  simp [mapArgs]

theorem mapArgs_length (l : List String) : (mapArgs l).length = 2 * l.length := by
  induction l with
  | nil => simp [mapArgs]
  | cons x xs ih =>
      simp only [mapArgs, List.flatMap_cons] at ih ⊢
      simp [ih]
      omega

theorem aLabels_succ (n : Nat) :
    aLabels (n + 1) = aLabels n ++ [label Audio (n : Int)] := by
  simp [aLabels, List.range_succ]

theorem vphase_new : VPhase (Filters.new 0) :=
  ⟨rfl, rfl, rfl, by simp [mapArgs, Filters.new], Or.inl ⟨rfl, rfl⟩⟩

theorem vphase_add (st : Filters) (f : String) (h : VPhase st) :
    VPhase (st.add_filter f 0 Video) := by
  obtain ⟨ha1, ha2, ha3, ho, hv⟩ := h
  rcases hv with ⟨hm, hl⟩ | ⟨hm, hl⟩
  · obtain ⟨g1, g2, g3, g4, g5, g6, _, _⟩ := addV_open st f 0 (by rw [hl]; decide)
    refine ⟨by rw [g4, ha1], by rw [g6, ha2], by rw [g5, ha3], ?_,
      Or.inr ⟨by rw [g1, hm]; simp, g3⟩⟩
    rw [g2, g1, ho, hm]
    simp [mapArgs]
  · obtain ⟨g1, g2, g3, g4, g5, g6, _, _⟩ := addV_keep st f 0 hl
    exact ⟨by rw [g4, ha1], by rw [g6, ha2], by rw [g5, ha3],
      by rw [g2, g1, ho], Or.inr ⟨by rw [g1, hm], by rw [g3, hl]⟩⟩

theorem vphase_deinterlace (fo : Option String) (st : Filters) (h : VPhase st) :
    VPhase (deinterlace fo st) := by
  cases fo with
  | none => exact h
  | some o =>
      simp only [deinterlace]
      split
      · exact vphase_add st _ h
      · exact h

theorem vphase_pad (a : ℚ) (st : Filters) (v : VideoStream)
    (config : PlayoutConfig) (h : VPhase st) : VPhase (pad a st v config) := by
  rw [pad]
  split
  · exact vphase_add st _ h
  · exact h

theorem vphase_fpsStep (q : ℚ) (st : Filters) (config : PlayoutConfig)
    (h : VPhase st) : VPhase (fpsStep q st config) := by
  rw [fpsStep]
  split
  · exact vphase_add st _ h
  · exact h

theorem vphase_scale (wd ht : Option Int) (a : ℚ) (st : Filters)
    (config : PlayoutConfig) (h : VPhase st) : VPhase (scale wd ht a st config) := by
  cases wd with
  | none =>
      cases ht with
      | none => exact vphase_add _ _ (vphase_add st _ h)
      | some hh => exact vphase_add _ _ (vphase_add st _ h)
  | some w =>
      cases ht with
      | none => exact vphase_add _ _ (vphase_add st _ h)
      | some hh =>
          simp only [scale]
          have hbase : VPhase (if w ≠ config.processing.width
              ∨ hh ≠ config.processing.height then
              st.add_filter ("scale=" ++ toString config.processing.width ++ ":"
                ++ toString config.processing.height) 0 Video
            else st.add_filter "null" 0 Video) := by
            split
            · exact vphase_add st _ h
            · exact vphase_add st _ h
          split
          · exact vphase_add _ _ hbase
          · exact hbase

theorem vphase_extend_video (node : Media) (st : Filters) (h : VPhase st) :
    VPhase (extend_video node st) := by
  unfold extend_video
  split
  · split
    · exact vphase_add st _ h
    · exact h
  · exact h

theorem vphase_no_probe (config : PlayoutConfig) (st : Filters) (h : VPhase st) :
    VPhase (no_probe_video config st) :=
  vphase_scale none none 1 (fpsStep 0 st config) config (vphase_fpsStep 0 st config h)

theorem vphase_video_geometry (config : PlayoutConfig) (v : VideoStream)
    (st st2 : Filters) (h : video_geometry config v st = some st2)
    (hp : VPhase st) : VPhase st2 := by
  revert h
  unfold video_geometry
  cases aspect_calc v.display_aspect_ratio config with
  | none => intro h; exact absurd h (by simp)
  | some a =>
      intro h
      have h2 := Option.some.inj h
      subst h2
      exact vphase_scale _ _ _ _ _ (vphase_fpsStep _ _ _
        (vphase_pad _ _ _ _ (vphase_deinterlace _ _ hp)))

theorem vphase_probe_video (config : PlayoutConfig) (node : Media)
    (st st2 : Filters) (hp : VPhase st)
    (h : probe_video config node st = some st2) : VPhase st2 := by
  revert h
  unfold probe_video
  cases node.probe with
  | none =>
      intro h
      have h2 := Option.some.inj h
      subst h2
      exact vphase_no_probe config st hp
  | some probe =>
      intro h
      dsimp only at h
      have hp2 : VPhase (if node.audioIsFile then { st with audio_position := 1 }
          else st) := by
        split
        · exact hp
        · exact hp
      cases hvs : probe.video_streams[0]? with
      | none =>
          rw [hvs] at h
          have h2 : extend_video node (if node.audioIsFile then
              { st with audio_position := 1 } else st) = st2 := Option.some.inj h
          subst h2
          exact vphase_extend_video node _ hp2
      | some v =>
          rw [hvs] at h
          rcases Option.map_eq_some'.mp h with ⟨stg, hg, h2⟩
          subst h2
          have hg2 : video_geometry config v (if node.audioIsFile then
              { st with audio_position := 1 } else st) = some stg := hg
          exact vphase_extend_video node _
            (vphase_video_geometry config v _ stg hg2 hp2)

theorem vphase_add_text (ext : Externals) (node : Media) (st : Filters)
    (config : PlayoutConfig) (h : VPhase st) : VPhase (add_text ext node st config) := by
  rw [add_text]
  split
  · exact vphase_add st _ h
  · exact h

theorem vphase_fade_video (node : Media) (st : Filters) (h : VPhase st) :
    VPhase (fade node st 0 Video) := by
  have hsplit : fade node st 0 Video =
      (if node.out ≠ node.duration ∧ node.out - node.seek - 1 > 0 then
        (if node.seek > 0 ∨ node.is_live = some true then
          st.add_filter ("" ++ "fade=in:st=0:d=0.5") 0 Video else st).add_filter
          ("" ++ "fade=out:st=" ++ fmtQ (node.out - node.seek - 1) ++ ":d=1.0") 0 Video
      else (if node.seek > 0 ∨ node.is_live = some true then
          st.add_filter ("" ++ "fade=in:st=0:d=0.5") 0 Video else st)) := rfl
  rw [hsplit]
  have hbase : VPhase (if node.seek > 0 ∨ node.is_live = some true then
      st.add_filter ("" ++ "fade=in:st=0:d=0.5") 0 Video else st) := by
    split
    · exact vphase_add st _ h
    · exact h
  split
  · exact vphase_add _ _ hbase
  · exact hbase

theorem vphase_overlay (node : Media) (st : Filters) (config : PlayoutConfig)
    (h : VPhase st) : VPhase (overlay node st config) := by
  rw [overlay]
  split
  · exact vphase_add st _ h
  · exact h

theorem vphase_realtime (node : Media) (st : Filters) (config : PlayoutConfig)
    (ext : Externals) (h : VPhase st) : VPhase (realtime node st config ext) := by
  rw [realtime]
  split
  · exact vphase_add st _ h
  · exact h

theorem vphase_custom_video (f : String) (st : Filters) (h : VPhase st) :
    VPhase (custom f st 0 Video) := by
  rw [custom]
  split
  · exact vphase_add st _ h
  · exact h

theorem aopened_open (i : Nat) (st : Filters) (f : String)
    (h : st.audio_last ≠ (i : Int)) :
    AOpened i st (st.add_filter f (i : Int) Audio) := by
  obtain ⟨g1, g2, g3, g4, _, _, _, _⟩ := addA_open st f (i : Int) h
  exact ⟨g1, g2, g3, g4⟩

theorem aopened_add (i : Nat) (st0 st : Filters) (f : String)
    (h : AOpened i st0 st) : AOpened i st0 (st.add_filter f (i : Int) Audio) := by
  obtain ⟨h1, h2, h3, h4⟩ := h
  obtain ⟨g1, g2, g3, g4, _, _, _, _⟩ := addA_keep st f (i : Int) h3
  exact ⟨by rw [g1, h1], by rw [g2, h2], by rw [g3, h3], by rw [g4, h4]⟩

theorem aopened_loudnorm (ext : Externals) (config : PlayoutConfig) (i : Nat)
    (st0 st : Filters) (h : AOpened i st0 st) :
    AOpened i st0 (add_loudnorm ext st config (i : Int)) := by
  rw [add_loudnorm]
  split
  · exact aopened_add i st0 st _ h
  · exact h

theorem aopened_fade (node : Media) (i : Nat) (st0 st : Filters)
    (h : AOpened i st0 st) : AOpened i st0 (fade node st (i : Int) Audio) := by
  have hsplit : fade node st (i : Int) Audio =
      (if node.out ≠ node.duration ∧ node.out - node.seek - 1 > 0 then
        (if node.seek > 0 ∨ node.is_live = some true then
          st.add_filter ("a" ++ "fade=in:st=0:d=0.5") (i : Int) Audio else st).add_filter
          ("a" ++ "fade=out:st=" ++ fmtQ (node.out - node.seek - 1) ++ ":d=1.0")
          (i : Int) Audio
      else (if node.seek > 0 ∨ node.is_live = some true then
          st.add_filter ("a" ++ "fade=in:st=0:d=0.5") (i : Int) Audio else st)) := rfl
  rw [hsplit]
  have hbase : AOpened i st0 (if node.seek > 0 ∨ node.is_live = some true then
      st.add_filter ("a" ++ "fade=in:st=0:d=0.5") (i : Int) Audio else st) := by
    split
    · exact aopened_add i st0 st _ h
    · exact h
  split
  · exact aopened_add i st0 _ _ hbase
  · exact hbase

theorem aopened_volume (config : PlayoutConfig) (i : Nat) (st0 st : Filters)
    (h : AOpened i st0 st) : AOpened i st0 (audio_volume st config (i : Int)) := by
  rw [audio_volume]
  split
  · exact aopened_add i st0 st _ h
  · exact h

theorem aopened_custom (f : String) (i : Nat) (st0 st : Filters)
    (h : AOpened i st0 st) : AOpened i st0 (custom f st (i : Int) Audio) := by
  rw [custom]
  split
  · exact aopened_add i st0 st _ h
  · exact h

theorem aopened_dispatch_anull (node : Media) (i : Nat) (st : Filters)
    (h : st.audio_last ≠ (i : Int)) :
    AOpened i st ((audio_dispatch node i st).add_filter "anull" (i : Int) Audio) := by
  have hcase : audio_dispatch node i st = st ∨
      AOpened i st (audio_dispatch node i st) := by
    rw [audio_dispatch]
    split
    · cases hd0 : audio_dur0 node with
      | none => left; exact extend_audio_none node st (i : Int) hd0
      | some d =>
          rw [extend_audio_some node st (i : Int) d hd0]
          split
          · right; exact aopened_open i st _ h
          · left; rfl
    · split
      · right; exact aopened_open i st _ h
      · left; rfl
  rcases hcase with he | hop
  · rw [he]
    exact aopened_open i st _ h
  · exact aopened_add i st _ _ hop

theorem aopened_body (ext : Externals) (config : PlayoutConfig)
    (proc_af list_af : String) (node : Media) (i : Nat) (st : Filters)
    (h : st.audio_last ≠ (i : Int)) :
    AOpened i st (audio_track_step ext config proc_af list_af node st i) := by
  rw [audio_track_step]
  exact aopened_custom list_af i st _ (aopened_custom proc_af i st _
    (aopened_volume config i st _ (aopened_fade node i st _
      (aopened_loudnorm ext config i st _
        (aopened_dispatch_anull node i st h)))))

theorem aphase_step (ext : Externals) (config : PlayoutConfig)
    (proc_af list_af : String) (node : Media) (vl : List String) (i : Nat)
    (st : Filters) (h : APhase vl i st) :
    APhase vl (i + 1) (audio_track_step ext config proc_af list_af node st i) := by
  obtain ⟨hv, ham, hal, ho⟩ := h
  have hne : st.audio_last ≠ (i : Int) := by rw [hal]; omega
  obtain ⟨g1, g2, g3, g4⟩ := aopened_body ext config proc_af list_af node i st hne
  refine ⟨by rw [g4, hv], by rw [g1, ham, aLabels_succ], ?_, ?_⟩
  · rw [g3]
    push_cast
    omega
  · rw [g2, ho, aLabels_succ, mapArgs_append]
    simp [mapArgs, List.append_assoc]

theorem aphase_loop (ext : Externals) (config : PlayoutConfig)
    (proc_af list_af : String) (node : Media) (vl : List String) (n : Nat)
    (st : Filters) (h : APhase vl 0 st) :
    APhase vl n ((List.range n).foldl
      (audio_track_step ext config proc_af list_af node) st) := by
  induction n with
  | zero => simpa using h
  | succ k ih =>
      rw [List.range_succ, List.foldl_append, List.foldl_cons, List.foldl_nil]
      exact aphase_step ext config proc_af list_af node vl k _ ih

theorem vphase_to_aphase (st : Filters) (h : VPhase st) :
    APhase st.video_map 0 st := by
  obtain ⟨h1, _, h3, h4, _⟩ := h
  refine ⟨rfl, by rw [h1]; simp [aLabels], by rw [h3]; decide, ?_⟩
  rw [h4]
  simp [aLabels, mapArgs]

/-! ### Claim C2 -/

/-- C2 — Label uniqueness and mapping bookkeeping: in every completed
`filter_chains` invocation, the audio label sequence is exactly
`[aout0] … [aout(n-1)]` for the `n` configured audio tracks (one label per
opened segment, in creation order), the video label sequence is empty or
exactly `[vout0]`, no two produced output labels are identical, the output
mapping is exactly one `-map <label>` directive per produced label in
creation order, and its (flat) length is twice the number of opened
segments — i.e. one directive per distinct (kind, track) segment opened. -/
theorem C2_label_uniqueness (ext : Externals) (config : PlayoutConfig)
    (node : Media) (st : Filters)
    (h : filter_chains_state ext config node = some st) :
    st.audio_map = aLabels config.processing.audio_tracks ∧
    (st.video_map = [] ∨ st.video_map = [label Video 0]) ∧
    (st.video_map ++ st.audio_map).Nodup ∧
    st.output_map = mapArgs (st.video_map ++ st.audio_map) ∧
    st.output_map.length = 2 * (st.video_map.length + st.audio_map.length) := by
  revert h
  unfold filter_chains_state
  cases hpv : probe_video config node (Filters.new 0) with
  | none => intro h; exact absurd h (by simp)
  | some st0 =>
      intro h
      dsimp only at h
      have h2 := Option.some.inj h
      subst h2
      have hv0 : VPhase st0 := vphase_probe_video config node _ st0 vphase_new hpv
      have hv1 := vphase_add_text ext node st0 config hv0
      have hv2 := vphase_fade_video node _ hv1
      have hv3 := vphase_overlay node _ config hv2
      have hv4 := vphase_realtime node _ config ext hv3
      have hv5 := vphase_custom_video
        (ext.customSplit config.processing.custom_filter).1 _ hv4
      have hv6 := vphase_custom_video (ext.customSplit node.custom_filter).1 _ hv5
      obtain ⟨hfv, hfa, _, hfo⟩ := aphase_loop ext config
        (ext.customSplit config.processing.custom_filter).2
        (ext.customSplit node.custom_filter).2 node _
        config.processing.audio_tracks _ (vphase_to_aphase _ hv6)
      obtain ⟨_, _, _, _, hd⟩ := hv6
      simp only [Filters.close_chains]
      refine ⟨hfa, ?_, ?_, ?_, ?_⟩
      · rcases hd with ⟨hm, _⟩ | ⟨hm, _⟩
        · left; rw [hfv, hm]
        · right; rw [hfv, hm]
      · rw [hfv, hfa]
        rcases hd with ⟨hm, _⟩ | ⟨hm, _⟩
        · rw [hm]
          simpa using aLabels_nodup config.processing.audio_tracks
        · rw [hm, List.singleton_append]
          exact List.nodup_cons.mpr
            ⟨vout_not_mem_aLabels config.processing.audio_tracks,
              aLabels_nodup config.processing.audio_tracks⟩
      · rw [hfo, hfv, hfa, mapArgs_append]
      · rw [hfo, hfv, hfa]
        simp [List.length_append, mapArgs_length]
        omega

/-- C2 witness: the bookkeeping facts evaluated on the completed run of
`cfgC2` (two audio tracks) over `nodeB`. -/
theorem C2_label_uniqueness_witness :
    stC2.audio_map = aLabels cfgC2.processing.audio_tracks ∧
    (stC2.video_map = [] ∨ stC2.video_map = [label Video 0]) ∧
    (stC2.video_map ++ stC2.audio_map).Nodup ∧
    stC2.output_map = mapArgs (stC2.video_map ++ stC2.audio_map) ∧
    stC2.output_map.length = 2 * (stC2.video_map.length + stC2.audio_map.length) :=
  C2_label_uniqueness extB cfgC2 nodeB stC2 (by with_unfolding_all decide)

/-! ### Claim C3 -/

/-- C3 counterexample: on `extB`/`cfgC3`/`nodeC3` — a probe with no streams,
no audio tracks configured, and no filter step applicable, so no fragment is
ever added (all label maps and the output mapping stay empty) — the returned
command list nevertheless contains `-filter_complex` (with the degenerate
program `[vout-1];[aout-1]`) and no default raw-stream map arguments. -/
theorem C3_counterexample :
    filter_chains extB cfgC3 nodeC3
        = some ["-filter_complex", "[vout-1];[aout-1]"] ∧
    (filter_chains_state extB cfgC3 nodeC3).map Filters.output_map = some [] ∧
    (filter_chains_state extB cfgC3 nodeC3).map Filters.audio_map = some [] ∧
    (filter_chains_state extB cfgC3 nodeC3).map Filters.video_map = some [] := by
  refine ⟨?_, ?_, ?_, ?_⟩ <;> with_unfolding_all decide

/-- C3 amended: this revision has no raw-stream-map fallback.  For every
invocation in which no filter step applies (probe present but streamless,
no audio tracks configured, no text/fade/logo/realtime/custom step firing),
the returned command list still consists of `-filter_complex` with the
degenerate program `[vout-1];[aout-1]`, and no `-map` arguments at all. -/
theorem C3_amended_no_fallback (ext : Externals) (config : PlayoutConfig)
    (node : Media) (p : MediaProbe)
    (hp : node.probe = some p) (hvs : p.video_streams = [])
    (hat : config.processing.audio_tracks = 0)
    (htext : config.text.add_text = false)
    (hseek : node.seek = 0) (hout : node.out = node.duration)
    (hlive : node.is_live ≠ some true)
    (hlogo : config.processing.add_logo = false)
    (hrt : ¬(config.general.generate = none ∧ config.out.mode = OutputMode.HLS))
    (hcs1 : ext.customSplit config.processing.custom_filter = ("", ""))
    (hcs2 : ext.customSplit node.custom_filter = ("", "")) :
    filter_chains ext config node
      = some ["-filter_complex", "[vout-1];[aout-1]"] := by
  have hpv : probe_video config node (Filters.new 0) =
      some (if node.audioIsFile then { Filters.new 0 with audio_position := 1 }
        else Filters.new 0) := by
    simp [probe_video, hp, hvs, extend_video]
  have h1 : add_text ext node (if node.audioIsFile then
      { Filters.new 0 with audio_position := 1 } else Filters.new 0) config
      = (if node.audioIsFile then { Filters.new 0 with audio_position := 1 }
        else Filters.new 0) := by
    rw [add_text, if_neg]
    simp [htext]
  have h2 : fade node (if node.audioIsFile then
      { Filters.new 0 with audio_position := 1 } else Filters.new 0) 0 Video
      = (if node.audioIsFile then { Filters.new 0 with audio_position := 1 }
        else Filters.new 0) := by
    simp [fade, hseek, hout, hlive]
  have h3 : overlay node (if node.audioIsFile then
      { Filters.new 0 with audio_position := 1 } else Filters.new 0) config
      = (if node.audioIsFile then { Filters.new 0 with audio_position := 1 }
        else Filters.new 0) := by
    simp [overlay, hlogo]
  have h4 : realtime node (if node.audioIsFile then
      { Filters.new 0 with audio_position := 1 } else Filters.new 0) config ext
      = (if node.audioIsFile then { Filters.new 0 with audio_position := 1 }
        else Filters.new 0) := by
    rw [realtime, if_neg hrt]
  have h5 : custom (ext.customSplit config.processing.custom_filter).1
      (if node.audioIsFile then { Filters.new 0 with audio_position := 1 }
        else Filters.new 0) 0 Video
      = (if node.audioIsFile then { Filters.new 0 with audio_position := 1 }
        else Filters.new 0) := by
    rw [hcs1]
    simp [custom]
  have h6 : custom (ext.customSplit node.custom_filter).1
      (if node.audioIsFile then { Filters.new 0 with audio_position := 1 }
        else Filters.new 0) 0 Video
      = (if node.audioIsFile then { Filters.new 0 with audio_position := 1 }
        else Filters.new 0) := by
    rw [hcs2]
    simp [custom]
  have hstate : filter_chains_state ext config node =
      some ((if node.audioIsFile then { Filters.new 0 with audio_position := 1 }
        else Filters.new 0).close_chains) := by
    unfold filter_chains_state
    rw [hpv]
    dsimp only
    rw [h1, h2, h3, h4, h5, h6, hat]
    simp only [List.range_zero, List.foldl_nil]
  rw [filter_chains, hstate]
  by_cases haf : node.audioIsFile
  · rw [if_pos haf]
    with_unfolding_all decide
  · rw [if_neg haf]
    with_unfolding_all decide

/-- C3 amended witness: `C3_amended_no_fallback` evaluated on the concrete
no-step invocation `extB`/`cfgC3`/`nodeC3`. -/
theorem C3_amended_no_fallback_witness :
    filter_chains extB cfgC3 nodeC3
      = some ["-filter_complex", "[vout-1];[aout-1]"] :=
  C3_amended_no_fallback extB cfgC3 nodeC3 ⟨[], []⟩ rfl rfl rfl rfl
    (by with_unfolding_all decide) (by with_unfolding_all decide)
    (by with_unfolding_all decide) rfl (by with_unfolding_all decide) rfl rfl

end Ffplayout
